import Mathlib

/-!
Shallow embedding of the three Arduino control loops of this repository:
the analog averager (`src/arduino/adder/src/main.cpp`), the threshold
monitor (`src/arduino/limit_monitoring/src/main.cpp`) and the square-wave
generator (`src/arduino/pulsar/src/main.cpp`), together with theorems
settling the specification claims about them.

C integer arithmetic notes used throughout:
  - C integer division truncates toward zero, which is `Int.tdiv` in Lean
    (the default `/` on `Int` in Lean is Euclidean division and differs on
    negative numerators, so `Int.tdiv` is used wherever the source divides).
  - `millis()` returns `unsigned long` (32 bits on the Arduino Due); the
    subtraction `t - last` and the comparison against `FREQUENCY` happen in
    unsigned 32-bit arithmetic, modelled by `elapsed32` below.
-/

namespace Observer

/-- Arduino's `map(x, in_min, in_max, out_min, out_max)` from the Arduino
core library (a collaborator of this repository, not part of src/): it
computes `(x - in_min) * (out_max - out_min) / (in_max - in_min) + out_min`
on `long` values with C truncating division. -/
def arduinoMap (x in_min in_max out_min out_max : Int) : Int :=
  Int.tdiv ((x - in_min) * (out_max - out_min)) (in_max - in_min) + out_min

/-- Arduino's `constrain(amt, low, high)`:
`(amt < low) ? low : ((amt > high) ? high : amt)`. -/
def constrain (amt low high : Int) : Int :=
  if amt < low then low else if amt > high then high else amt

/-- The calibration constant `lo = 1023 / (voltage/dac_lo)` with
`voltage = 3.3f`, `dac_lo = 0.55f`: single-precision evaluation gives
`170.500003...`, truncated to `long` 170 when passed to `map`. -/
def LO : Int := 170

/-- The calibration constant `hi = 1023 / (voltage/dac_hi)` with
`voltage = 3.3f`, `dac_hi = 2.75f`: single-precision evaluation gives
`852.50005...`, truncated to `long` 852 when passed to `map`. -/
def HI : Int := 852

/-- `analog_read(pin)` of the adder and the monitor (identical in both
files): `map(analogRead(pin), lo, hi, 0, 255)`. The raw sample `s` stands
for the value returned by `analogRead(pin)`. -/
def analog_read (s : Int) : Int := arduinoMap s LO HI 0 255

/-! ## Averager (`src/arduino/adder/src/main.cpp`) -/

/-- The values the adder's `loop` writes: `analogWrite(DAC0, ...)` and
`analogWrite(DAC1, ...)`. -/
structure AdderOut where
  dac0 : Int
  dac1 : Int
deriving DecidableEq

/-- The post-scaling stage of the adder's `loop`:
`sum = (value0+value1) / 2` followed by `constrain(sum, 0, 255)`
(the value passed to both `analogWrite` calls). -/
def adderCombine (value0 value1 : Int) : Int :=
  constrain (Int.tdiv (value0 + value1) 2) 0 255

/-- The adder's `loop` body as a function of the two raw samples returned
by `analogRead(A0)` and `analogRead(A1)`: both DAC channels receive
`constrain((value0+value1)/2, 0, 255)` where `valuei = analog_read(Ai)`. -/
def adderLoop (raw0 raw1 : Int) : AdderOut :=
  ⟨adderCombine (analog_read raw0) (analog_read raw1),
   adderCombine (analog_read raw0) (analog_read raw1)⟩

/-- The clamp function as the specification words it:
`clamp(x, lo, hi) = max lo (min x hi)`. -/
def specClamp (x low high : Int) : Int := max low (min x high)

/-! ## Threshold monitor (`src/arduino/limit_monitoring/src/main.cpp`) -/

/-- The monitor's `loop` body as a function of the raw sample returned by
`analogRead(A1)`: the list of digital write events `(pin, level)` it
performs, `true` standing for `HIGH`. The comparison
`temperature > 229.5` is exact rational arithmetic: `temperature` is an
`int` converted exactly to `double`, and `229.5` is exactly representable. -/
def monitorLoop (raw : Int) : List (Nat × Bool) :=
  let temperature := analog_read raw
  if (229.5 : ℚ) < (temperature : ℚ) then [(40, true)] else [(40, false)]

/-- The analog write events of the monitor's `loop` body: the source
contains no `analogWrite` call, so the list is empty for every poll. -/
def monitorAnalogWrites (_raw : Int) : List Int := []

/-! ## Square-wave generator (`src/arduino/pulsar/src/main.cpp`) -/

/-- The generator's persistent state: the static variables `mult`
(the toggle flag, initially 0) and `last` (the last-transition timestamp,
set from `millis()`; always a nonnegative time value). -/
structure PulsarState where
  mult : Int
  last : Nat
deriving DecidableEq

/-- The output writes of one transition of the generator: the value of
`analogWrite(DAC1, mult * 255)` and the level of
`digitalWrite(DIGITAL_OUT, mult ? HIGH : LOW)` (`true` = `HIGH`). -/
structure POut where
  analog : Int
  digital : Bool
deriving DecidableEq

/-- `FREQUENCY = 100`. -/
def FREQUENCY : Nat := 100

/-- The unsigned 32-bit value of `t - last` as computed by the source:
`t` is `unsigned long` and `last` is converted to `unsigned long`, so the
subtraction wraps modulo `2^32`. For `last ≤ t < 2^32` this is the true
elapsed time `t - last`. -/
def elapsed32 (t last : Nat) : Nat := (t + (2 ^ 32 - last % 2 ^ 32)) % 2 ^ 32

/-- The flag update `mult = abs(1 - mult)`. -/
def multFlip (m : Int) : Int := |1 - m|

/-- The generator's `loop` body as a function of `t = millis()` and the
state: if `t - last > FREQUENCY` (unsigned arithmetic) it writes
`mult * 255` to DAC1 and drives the digital pin by the current `mult`,
then sets `mult = abs(1 - mult)` and `last = t`; otherwise it does
nothing. Returns the new state and the optional output writes. -/
def pulsarLoop (t : Nat) (s : PulsarState) : PulsarState × Option POut :=
  if FREQUENCY < elapsed32 t s.last then
    (⟨multFlip s.mult, t⟩, some ⟨s.mult * 255, s.mult != 0⟩)
  else
    (s, none)

/-- The generator states reachable from startup: `setup` leaves
`mult = 0` and `last = millis()`, and every poll steps the state by
`pulsarLoop`. -/
inductive PulsarReach : PulsarState → Prop where
  | init (t0 : Nat) : PulsarReach ⟨0, t0⟩
  | step (t : Nat) (s : PulsarState) : PulsarReach s → PulsarReach (pulsarLoop t s).1

/-! ## Helper lemmas -/

/-- For an integer temperature, the exact comparison against 229.5 is the
same as being at least 230. -/
theorem monitor_cond (t : Int) : ((229.5 : ℚ) < (t : ℚ)) ↔ 230 ≤ t := by
  rw [show (229.5 : ℚ) = ((459 : Int) : ℚ) / 2 by norm_num]
  rw [div_lt_iff₀ (by norm_num : (0 : ℚ) < 2)]
  constructor
  · intro h
    have h2 : (459 : Int) < t * 2 := by exact_mod_cast h
    omega
  · intro h
    have h2 : (459 : Int) < t * 2 := by omega
    exact_mod_cast h2

/-- The monitor's branch condition, restated over the integers. -/
theorem monitorLoop_eq (raw : Int) :
    monitorLoop raw =
      if 230 ≤ analog_read raw then [(40, true)] else [(40, false)] := by
  simp only [monitorLoop]
  rw [if_congr (monitor_cond _) rfl rfl]

/-- The scaling map specialised to the output range `[0, 255]`. -/
theorem map_formula (x lo hi : Int) :
    arduinoMap x lo hi 0 255 = Int.tdiv ((x - lo) * 255) (hi - lo) := by
  simp [arduinoMap]

/-- Every reachable generator state has `mult = 0` or `mult = 1`. -/
theorem pulsarReach_mult (s : PulsarState) (h : PulsarReach s) :
    s.mult = 0 ∨ s.mult = 1 := by
  induction h with
  | init t0 => left; rfl
  | step t s hs ih =>
      by_cases hc : FREQUENCY < elapsed32 t s.last
      · simp only [pulsarLoop, if_pos hc]
        rcases ih with h0 | h1
        · right
          show multFlip s.mult = 1
          rw [h0]; decide
        · left
          show multFlip s.mult = 0
          rw [h1]; decide
      · simp only [pulsarLoop, if_neg hc]
        exact ih

/-! ## Claim theorems -/

/-- C1 (counterexample): the claim says a transition poll writes the
post-flip state, so from INACTIVE (`mult = 0`, `last = 0`) at time 101 the
analog output would be driven to 255 and the digital output HIGH; the code
instead writes the pre-flip state, driving the analog output to 0 and the
digital output LOW on that very poll, even though the elapsed time 101
does exceed 100, the flag does flip to 1 and `last` does become 101. -/
theorem C1_counterexample :
    FREQUENCY < elapsed32 101 0 ∧
    (pulsarLoop 101 ⟨0, 0⟩).2 = some ⟨0, false⟩ ∧
    (pulsarLoop 101 ⟨0, 0⟩).2 ≠ some ⟨255, true⟩ ∧
    (pulsarLoop 101 ⟨0, 0⟩).1 = ⟨1, 101⟩ := by
  refine ⟨by decide, by decide, by decide, by decide⟩

/-- C1 (amended): on every poll where the elapsed time since the last
transition strictly exceeds 100, the poll writes the current pre-flip
state to the outputs (`mult * 255` to the analog output, digital active
iff `mult ≠ 0`), then flips the toggle flag and records the current time;
in particular from INACTIVE with `last = 0` at time 101 the analog output
is driven to 0 and the digital output goes inactive, while the state
flips to ACTIVE and `last` becomes 101. -/
theorem C1_pre_flip_transition (t : Nat) (s : PulsarState)
    (h : FREQUENCY < elapsed32 t s.last) :
    pulsarLoop t s = (⟨multFlip s.mult, t⟩, some ⟨s.mult * 255, s.mult != 0⟩) ∧
    pulsarLoop 101 ⟨0, 0⟩ = (⟨1, 101⟩, some ⟨0, false⟩) := by
  refine ⟨?_, by decide⟩
  simp only [pulsarLoop, if_pos h]

/-- C1 (witness for the amended theorem): the transition at time 101 from
the initial state. -/
theorem C1_pre_flip_transition_witness :
    pulsarLoop 101 ⟨0, 0⟩ = (⟨multFlip 0, 101⟩, some ⟨0 * 255, (0 : Int) != 0⟩) :=
  (C1_pre_flip_transition 101 ⟨0, 0⟩ (by decide)).1

/-- C2: for every pair of scaled values `(a, b)`, each in `[0, 255]`, the
value the averager writes equals `clamp((a+b)/2, 0, 255)` with C
truncating division, and that value goes to both analog output
channels. -/
theorem C2_averager_clamped_mean (a b raw0 raw1 : Int)
    (ha0 : 0 ≤ a) (ha1 : a ≤ 255) (hb0 : 0 ≤ b) (hb1 : b ≤ 255)
    (h0 : analog_read raw0 = a) (h1 : analog_read raw1 = b) :
    (adderLoop raw0 raw1).dac0 = specClamp (Int.tdiv (a + b) 2) 0 255 ∧
    (adderLoop raw0 raw1).dac1 = specClamp (Int.tdiv (a + b) 2) 0 255 := by
  have hq : Int.tdiv (a + b) 2 = (a + b) / 2 :=
    Int.tdiv_eq_ediv (by omega) (by norm_num)
  constructor <;>
  · simp only [adderLoop, adderCombine, constrain, specClamp, h0, h1, hq]
    split_ifs <;> omega

/-- C2 (witness): scaled values 200 and 201, realised by raw samples 705
and 708, produce the truncated mean 200 on both channels. -/
theorem C2_averager_clamped_mean_witness :
    ((adderLoop 705 708).dac0 = specClamp (Int.tdiv (200 + 201) 2) 0 255 ∧
     (adderLoop 705 708).dac1 = specClamp (Int.tdiv (200 + 201) 2) 0 255) ∧
    specClamp (Int.tdiv (200 + 201) 2) 0 255 = 200 :=
  ⟨C2_averager_clamped_mean 200 201 705 708 (by decide) (by decide)
    (by decide) (by decide) (by decide) (by decide), by decide⟩

/-- C3: on every poll the monitor drives pin 40 HIGH iff the scaled value
strictly exceeds 229.5, and LOW otherwise; in particular the raw sample
783 scales to exactly 229 and yields LOW, and the raw sample 786 scales
to exactly 230 and yields HIGH. -/
theorem C3_monitor_threshold (raw : Int) :
    (monitorLoop raw = [(40, true)] ↔ (229.5 : ℚ) < (analog_read raw : ℚ)) ∧
    (monitorLoop raw = [(40, false)] ↔ ¬ ((229.5 : ℚ) < (analog_read raw : ℚ))) ∧
    (analog_read 783 = 229 ∧ monitorLoop 783 = [(40, false)]) ∧
    (analog_read 786 = 230 ∧ monitorLoop 786 = [(40, true)]) := by
  refine ⟨?_, ?_, ⟨by decide, ?_⟩, ⟨by decide, ?_⟩⟩
  · rw [monitorLoop_eq, monitor_cond]
    split_ifs with h <;> simp [h]
  · rw [monitorLoop_eq, monitor_cond]
    split_ifs with h <;> simp [h]
  · rw [monitorLoop_eq]
    decide
  · rw [monitorLoop_eq]
    decide

/-- C6: on every poll where the elapsed time since the last transition
does not exceed 100, the generator's state (`mult` and `last`) is
unchanged and no output write occurs. -/
theorem C6_no_transition (t : Nat) (s : PulsarState)
    (h : ¬ FREQUENCY < elapsed32 t s.last) :
    pulsarLoop t s = (s, none) := by
  simp only [pulsarLoop, if_neg h]

/-- C6 (witness): at elapsed time 50 from the initial state nothing
changes and nothing is written. -/
theorem C6_no_transition_witness :
    pulsarLoop 50 ⟨0, 0⟩ = (⟨0, 0⟩, none) :=
  C6_no_transition 50 ⟨0, 0⟩ (by decide)

/-- C4: for reference bounds `lo < hi`, the scaling map sends `lo` to 0
and `hi` to 255, is non-decreasing on `[lo, hi]`, and on `[lo, hi]` equals
the exact linear interpolant up to downward integer truncation:
`(hi-lo) * mapping(s) ≤ (s-lo) * 255 < (hi-lo) * (mapping(s) + 1)`. -/
theorem C4_linear_mapping (lo hi : Int) (hlt : lo < hi) :
    arduinoMap lo lo hi 0 255 = 0 ∧
    arduinoMap hi lo hi 0 255 = 255 ∧
    (∀ s1 s2 : Int, lo ≤ s1 → s1 ≤ s2 → s2 ≤ hi →
      arduinoMap s1 lo hi 0 255 ≤ arduinoMap s2 lo hi 0 255) ∧
    (∀ s : Int, lo ≤ s → s ≤ hi →
      (hi - lo) * arduinoMap s lo hi 0 255 ≤ (s - lo) * 255 ∧
      (s - lo) * 255 < (hi - lo) * (arduinoMap s lo hi 0 255 + 1)) := by
  have hd : (0 : Int) < hi - lo := by omega
  have hd0 : hi - lo ≠ 0 := by omega
  refine ⟨?_, ?_, ?_, ?_⟩
  · rw [map_formula]
    simp
  · rw [map_formula,
      Int.tdiv_eq_ediv (mul_nonneg (by omega) (by norm_num)) (le_of_lt hd)]
    exact Int.mul_ediv_cancel_left 255 hd0
  · intro s1 s2 h1 h12 h2
    rw [map_formula, map_formula,
      Int.tdiv_eq_ediv (mul_nonneg (by omega) (by norm_num)) (le_of_lt hd),
      Int.tdiv_eq_ediv (mul_nonneg (by omega) (by norm_num)) (le_of_lt hd)]
    exact Int.ediv_le_ediv hd (mul_le_mul_of_nonneg_right (by omega) (by norm_num))
  · intro s hs1 hs2
    rw [map_formula,
      Int.tdiv_eq_ediv (mul_nonneg (by omega) (by norm_num)) (le_of_lt hd)]
    have heq := Int.ediv_add_emod ((s - lo) * 255) (hi - lo)
    have hr0 := Int.emod_nonneg ((s - lo) * 255) hd0
    have hrlt := Int.emod_lt_of_pos ((s - lo) * 255) hd
    have hexp : (hi - lo) * ((s - lo) * 255 / (hi - lo) + 1)
        = (hi - lo) * ((s - lo) * 255 / (hi - lo)) + (hi - lo) := by ring
    constructor
    · linarith
    · rw [hexp]
      linarith

/-- C4 (witness): the endpoint images at the concrete calibration bounds
170 and 852. -/
theorem C4_linear_mapping_witness :
    arduinoMap 170 170 852 0 255 = 0 ∧ arduinoMap 852 170 852 0 255 = 255 :=
  ⟨(C4_linear_mapping 170 852 (by decide)).1,
   (C4_linear_mapping 170 852 (by decide)).2.1⟩

/-- C5: every value written to a physical analog output lies in
`[0, 255]`: the averager clamps before writing on both channels, every
reachable generator transition writes exactly 0 or 255, and the monitor
performs no analog writes at all. -/
theorem C5_analog_output_range :
    (∀ raw0 raw1 : Int,
      0 ≤ (adderLoop raw0 raw1).dac0 ∧ (adderLoop raw0 raw1).dac0 ≤ 255 ∧
      0 ≤ (adderLoop raw0 raw1).dac1 ∧ (adderLoop raw0 raw1).dac1 ≤ 255) ∧
    (∀ (t : Nat) (s : PulsarState), PulsarReach s →
      ∀ o : POut, (pulsarLoop t s).2 = some o →
        0 ≤ o.analog ∧ o.analog ≤ 255) ∧
    (∀ raw : Int, monitorAnalogWrites raw = []) := by
  refine ⟨?_, ?_, fun raw => rfl⟩
  · intro raw0 raw1
    simp only [adderLoop, adderCombine, constrain]
    split_ifs <;> omega
  · intro t s hs o ho
    by_cases hc : FREQUENCY < elapsed32 t s.last
    · simp only [pulsarLoop, if_pos hc, Option.some.injEq] at ho
      rcases pulsarReach_mult s hs with h0 | h1
      · rw [← ho]
        rw [h0]
        norm_num
      · rw [← ho]
        rw [h1]
        norm_num
    · simp only [pulsarLoop, if_neg hc] at ho
      exact absurd ho (by simp)

/-- C5 (witness): the first generator transition from the initial state
writes a value in range. -/
theorem C5_analog_output_range_witness :
    0 ≤ (⟨0, false⟩ : POut).analog ∧ (⟨0, false⟩ : POut).analog ≤ 255 :=
  C5_analog_output_range.2.1 101 ⟨0, 0⟩ (PulsarReach.init 0) ⟨0, false⟩ (by decide)

/-- C7: the scaling map is the unclamped linear formula for every raw
sample, so samples outside `[lo, hi]` extrapolate beyond `[0, 255]`
(raw 1023 scales to 318, raw 0 scales to -63); only the final averaged
value is clamped at the write, as the saturated output for two raw 1023
samples shows. -/
theorem C7_unclamped_extrapolation :
    (∀ s : Int, analog_read s = Int.tdiv ((s - LO) * 255) (HI - LO)) ∧
    (analog_read 1023 = 318 ∧ 255 < analog_read 1023) ∧
    (analog_read 0 = -63 ∧ analog_read 0 < 0) ∧
    (∀ raw0 raw1 : Int, (adderLoop raw0 raw1).dac0
        = constrain (Int.tdiv (analog_read raw0 + analog_read raw1) 2) 0 255 ∧
      (adderLoop raw0 raw1).dac1
        = constrain (Int.tdiv (analog_read raw0 + analog_read raw1) 2) 0 255) ∧
    (adderLoop 1023 1023).dac0 = 255 := by
  refine ⟨fun s => map_formula s LO HI, ⟨by decide, by decide⟩,
    ⟨by decide, by decide⟩, fun raw0 raw1 => ⟨rfl, rfl⟩, by decide⟩

/-- C8: the monitor and averager loop bodies are pure functions of their
raw samples (the sources have no mutable statics), so repeated polls with
identical samples give identical outputs; the generator produces an
output only on polls whose elapsed time exceeds the period, and is inert
otherwise. -/
theorem C8_poll_determinism :
    (∀ raw : Int, monitorLoop raw = monitorLoop raw) ∧
    (∀ raw0 raw1 : Int, adderLoop raw0 raw1 = adderLoop raw0 raw1) ∧
    (∀ (t : Nat) (s : PulsarState),
      (pulsarLoop t s).2 ≠ none → FREQUENCY < elapsed32 t s.last) ∧
    (∀ (t : Nat) (s : PulsarState),
      ¬ FREQUENCY < elapsed32 t s.last → pulsarLoop t s = (s, none)) := by
  refine ⟨fun raw => rfl, fun raw0 raw1 => rfl, ?_, ?_⟩
  · intro t s hne
    by_contra hc
    exact hne (by simp only [pulsarLoop, if_neg hc])
  · intro t s hc
    simp only [pulsarLoop, if_neg hc]

/-- C8 (witness): a non-crossing poll of the generator changes nothing. -/
theorem C8_poll_determinism_witness :
    pulsarLoop 99 ⟨0, 0⟩ = (⟨0, 0⟩, none) :=
  C8_poll_determinism.2.2.2 99 ⟨0, 0⟩ (by decide)

/-- C9: every reachable generator state has `mult` equal to 0 or 1 (the
update `abs (1 - mult)` swaps them), every analog value a reachable
transition writes is exactly 0 or 255, and two consecutive flips restore
the toggle flag. -/
theorem C9_toggle_invariant :
    (∀ s : PulsarState, PulsarReach s → s.mult = 0 ∨ s.mult = 1) ∧
    (multFlip 0 = 1 ∧ multFlip 1 = 0) ∧
    (∀ m : Int, m = 0 ∨ m = 1 → multFlip (multFlip m) = m) ∧
    (∀ (t : Nat) (s : PulsarState), PulsarReach s →
      ∀ o : POut, (pulsarLoop t s).2 = some o →
        o.analog = 0 ∨ o.analog = 255) := by
  refine ⟨pulsarReach_mult, ⟨by decide, by decide⟩, ?_, ?_⟩
  · rintro m (rfl | rfl) <;> decide
  · intro t s hs o ho
    by_cases hc : FREQUENCY < elapsed32 t s.last
    · simp only [pulsarLoop, if_pos hc, Option.some.injEq] at ho
      rcases pulsarReach_mult s hs with h0 | h1
      · left
        rw [← ho, h0]
        norm_num
      · right
        rw [← ho, h1]
        norm_num
    · simp only [pulsarLoop, if_neg hc] at ho
      exact absurd ho (by simp)

/-- C9 (witness): the initial state satisfies the toggle invariant. -/
theorem C9_toggle_invariant_witness :
    (⟨0, 0⟩ : PulsarState).mult = 0 ∨ (⟨0, 0⟩ : PulsarState).mult = 1 :=
  C9_toggle_invariant.1 ⟨0, 0⟩ (PulsarReach.init 0)

/-- C10: the monitor performs exactly one digital write per poll, always
to pin 40, whatever the level already driven. -/
theorem C10_monitor_single_write (raw : Int) :
    (monitorLoop raw).length = 1 ∧ (monitorLoop raw).map Prod.fst = [40] := by
  rw [monitorLoop_eq]
  split_ifs <;> simp

end Observer
